import Mathlib

/-!
# Timer/cooldown state machine of whatsapp-llm-pa

A shallow embedding of the scheduling core (`TimerService`, the unnamed
source file importing `node-cron` and `TimerState`) together with the
timer/cooldown portion of the durable ledger (`StorageService.ts`).

Modelling conventions:
* All wall-clock instants and durations are `Int` milliseconds, except the
  ledger rows, which the storage layer keeps in whole seconds
  (`Math.floor(Date.now() / 1000)` is modelled by `Int.fdiv · 1000`).
* A `setTimeout` handle is the `Nat` id of a pending one-shot `Task`; the
  `pending` list is the set of scheduled callbacks that have been neither
  cleared (`clearTimeout`) nor fired. Node's `clearTimeout` guarantees a
  cleared callback never runs, so "the callback for task `t` can still
  execute" is exactly "`t` is in `pending`".
* Events appended to `events` model the `EventEmitter` emissions in order.
* `try/catch` blocks that only log are modelled by total functions; a
  rejected storage promise that the service only logs leaves the ledger
  unchanged.
-/

namespace WhatsappPA

/-- `timer_type` in the `timers` table: `'response' | 'cooldown'`. -/
inductive TimerKind : Type
  | response
  | cooldown
deriving DecidableEq, Repr

/-- In-memory per-conversation timer state (`src/src/types/index.ts`,
`TimerState`): optional `setTimeout` handles for the response and cooldown
timers, the last owner-response instant, and the cooldown flag. -/
structure TimerState where
  chatId : String
  responseTimer : Option Nat := none
  cooldownTimer : Option Nat := none
  lastResponseTime : Option Int := none
  isInCooldown : Bool
deriving DecidableEq, Repr

/-- A scheduled `setTimeout` callback: its handle id, the conversation it
belongs to, which kind of expiry it performs, and its deadline (ms). -/
structure Task where
  id : Nat
  chatId : String
  kind : TimerKind
  fireAt : Int
deriving DecidableEq, Repr

/-- The events of `TimerService.EVENTS`, in emission order. -/
inductive Event : Type
  | responseTimerExpired (chatId : String)
  | cooldownStarted (chatId : String) (duration : Int)
  | cooldownEnded (chatId : String)
  | timerCancelled (chatId : String)
  | giladResponded (chatId : String)
deriving DecidableEq, Repr

/-- A row of the `conversations` table, reduced to what the timer subsystem
reads: the chat id and whether `status = 'active'`. -/
structure Conversation where
  chatId : String
  isActive : Bool
deriving DecidableEq, Repr

/-- A row of the `cooldowns` table (times in whole seconds). -/
structure CooldownRow where
  convId : String
  startTime : Int
  endTime : Int
  isActive : Bool
deriving DecidableEq, Repr

/-- A row of the `timers` table (times in whole seconds; `end_time` is
nullable). -/
structure TimerRow where
  id : Nat
  convId : String
  timerType : TimerKind
  startTime : Int
  endTime : Option Int
  isActive : Bool
deriving DecidableEq, Repr

/-- The durable ledger: the tables of `StorageService` the timer subsystem
touches. `nextRowId` models SQLite's rowid allocation for `timers`. -/
structure Ledger where
  conversations : List Conversation
  cooldowns : List CooldownRow
  timerRows : List TimerRow
  nextRowId : Nat := 0
deriving DecidableEq, Repr

/-- `config.app`: the configured response delay (2 minutes) and cooldown
period (5 hours), in ms. -/
structure Config where
  responseDelayMs : Int
  cooldownPeriodMs : Int
deriving DecidableEq, Repr

/-- `config.app` of the environment config module (the unnamed source file
exporting `config: EnvironmentConfig`), with the environment variables
unset: `responseDelayMs = parseInt(RESPONSE_DELAY_MS || '120000')`
(2 minutes) and `cooldownPeriodMs = parseInt(COOLDOWN_PERIOD_MS ||
'18000000')` (5 hours). -/
def defaultConfig : Config :=
  { responseDelayMs := 120000, cooldownPeriodMs := 18000000 }

/-- JS truthiness of a nullable number (`if (x)`): `null`/`undefined` and
`0` are falsy. -/
def jsTruthy : Option Int → Bool
  | none => false
  | some n => !(n == 0)

/-- `Math.floor(ms / 1000)`: floor division, as JS `Math.floor`. -/
def toSec (ms : Int) : Int := Int.fdiv ms 1000

/-! ## Storage layer (`StorageService.ts`, timer/cooldown portion) -/

/-- `getConversation(chatId)`: the `conversations` row for the chat id,
regardless of status. -/
def getConversation (l : Ledger) (chatId : String) : Option Conversation :=
  l.conversations.find? (fun c => c.chatId == chatId)

/-- `getActiveConversations()`: chat ids of rows with `status = 'active'`. -/
def getActiveConversations (l : Ledger) : List String :=
  (l.conversations.filter (fun c => c.isActive)).map (fun c => c.chatId)

/-- The `end_time` chosen by `ORDER BY end_time DESC LIMIT 1`: the greatest
`endTime` among the rows, if any. -/
def bestEndTime : List CooldownRow → Option Int
  | [] => none
  | r :: rs =>
    match bestEndTime rs with
    | none => some r.endTime
    | some e => some (max r.endTime e)

/-- `StorageService.startCooldown(chatId, durationMs)`: rejects when the
conversation is unknown (the service catches and logs, leaving the ledger
unchanged); otherwise deactivates every active cooldown row of the
conversation and inserts a fresh active row ending `durationMs/1000`
seconds from now. -/
def storageStartCooldown (l : Ledger) (chatId : String) (durationMs nowMs : Int) : Ledger :=
  match getConversation l chatId with
  | none => l
  | some _ =>
    let nowS := toSec nowMs
    let endT := nowS + Int.fdiv durationMs 1000
    { l with cooldowns :=
        (l.cooldowns.map (fun r =>
          if r.convId == chatId && r.isActive then { r with isActive := false } else r))
        ++ [{ convId := chatId, startTime := nowS, endTime := endT, isActive := true }] }

/-- `StorageService.isInCooldown(chatId)`: whether an active cooldown row of
the conversation has `end_time > now` (seconds). -/
def storageIsInCooldown (l : Ledger) (chatId : String) (nowMs : Int) : Bool :=
  match getConversation l chatId with
  | none => false
  | some _ =>
    l.cooldowns.any (fun r =>
      r.convId == chatId && r.isActive && decide (r.endTime > toSec nowMs))

/-- `StorageService.getRemainingCooldownTime(chatId)`: `(end_time − now)`
of the unexpired active row with the greatest `end_time`, in ms, floored at
zero; `0` when no such row exists. -/
def storageGetRemainingCooldownTime (l : Ledger) (chatId : String) (nowMs : Int) : Int :=
  match getConversation l chatId with
  | none => 0
  | some _ =>
    let nowS := toSec nowMs
    let rows := l.cooldowns.filter (fun r =>
      r.convId == chatId && r.isActive && decide (r.endTime > nowS))
    match bestEndTime rows with
    | none => 0
    | some e => max 0 ((e - nowS) * 1000)

/-- `StorageService.startTimer(chatId, timerType, durationMs)`: rejects when
the conversation is unknown (ledger unchanged at the catching caller);
otherwise inserts an active `timers` row. `end_time` is
`durationMs ? now + floor(durationMs/1000) : null` (JS truthiness: a
duration of `0` yields `null`). -/
def storageStartTimer (l : Ledger) (chatId : String) (kind : TimerKind)
    (durationMs : Option Int) (nowMs : Int) : Ledger :=
  match getConversation l chatId with
  | none => l
  | some _ =>
    let nowS := toSec nowMs
    let endT : Option Int :=
      match durationMs with
      | some d => if d == 0 then none else some (nowS + Int.fdiv d 1000)
      | none => none
    { l with
      timerRows := l.timerRows ++
        [{ id := l.nextRowId, convId := chatId, timerType := kind,
           startTime := nowS, endTime := endT, isActive := true }],
      nextRowId := l.nextRowId + 1 }

/-- `StorageService.endTimer(timerId)`: sets `is_active = 0` and
`end_time = now` on the row with that id. -/
def storageEndTimer (l : Ledger) (timerId : Nat) (nowMs : Int) : Ledger :=
  { l with timerRows := l.timerRows.map (fun r =>
      if r.id == timerId then { r with isActive := false, endTime := some (toSec nowMs) } else r) }

/-- Insertion of a row into a list kept `ORDER BY start_time DESC`. -/
def insertByStartDesc (r : TimerRow) : List TimerRow → List TimerRow
  | [] => [r]
  | x :: xs => if decide (r.startTime ≥ x.startTime) then r :: x :: xs
               else x :: insertByStartDesc r xs

/-- `ORDER BY start_time DESC` on the selected rows. -/
def orderByStartDesc : List TimerRow → List TimerRow
  | [] => []
  | x :: xs => insertByStartDesc x (orderByStartDesc xs)

/-- `StorageService.getActiveTimers(chatId, timerType?)`: the active `timers`
rows of the conversation, optionally filtered by type, ordered by
`start_time DESC`; `[]` when the conversation is unknown. -/
def storageGetActiveTimers (l : Ledger) (chatId : String) (kind : Option TimerKind) :
    List TimerRow :=
  match getConversation l chatId with
  | none => []
  | some _ =>
    orderByStartDesc (l.timerRows.filter (fun r =>
      r.convId == chatId && r.isActive &&
        (match kind with
         | some k => decide (r.timerType = k)
         | none => true)))

/-! ## Scheduling core (`TimerService`) -/

/-- The in-memory service state: the `timers` map, the scheduled (pending)
`setTimeout` callbacks, the events emitted so far, the write-through
ledger, the wall clock (ms), the next `setTimeout` handle id, and the
`isInitialized` flag. -/
structure SchedState where
  timers : String → Option TimerState
  pending : List Task
  events : List Event
  ledger : Ledger
  now : Int
  nextTaskId : Nat
  isInitialized : Bool

/-- `this.timers.set(chatId, v)`. -/
def mapSet (m : String → Option TimerState) (k : String) (v : TimerState) :
    String → Option TimerState :=
  fun k' => if k' = k then some v else m k'

/-- `clearTimeout(handle)`: the task with that handle id never fires. -/
def clearTimeout (p : List Task) (id : Nat) : List Task :=
  p.filter (fun t => t.id ≠ id)

/-- `if (handle) clearTimeout(handle)`. -/
def clearTimeoutOpt (p : List Task) : Option Nat → List Task
  | some id => clearTimeout p id
  | none => p

/-- The return value of a TS function as a caller sees it: `undefined` for a
`void` function, or a boolean. -/
inductive JsValue : Type
  | undef
  | jsBool (b : Bool)
deriving DecidableEq, Repr

/-- `TimerService.cancelTimer(chatId)` (declared `: void`; every return
statement is bare, so a caller receives `undefined`): if the chat has a
state with a pending response timer, clears it (`clearTimeout`, handle set
to `undefined`) and emits `TIMER_CANCELLED`; otherwise does nothing.
Cooldown fields are never touched. -/
def cancelTimer (s : SchedState) (chatId : String) : SchedState × JsValue :=
  match s.timers chatId with
  | none => (s, JsValue.undef)
  | some ts =>
    match ts.responseTimer with
    | some id =>
      ({ s with
          pending := clearTimeout s.pending id,
          timers := mapSet s.timers chatId { ts with responseTimer := none },
          events := s.events ++ [Event.timerCancelled chatId] }, JsValue.undef)
    | none => (s, JsValue.undef)

/-- `TimerService.startResponseTimer(chatId, callback)`: cancels any existing
timer, then **replaces** the chat's `TimerState` with a fresh record
`{chatId, isInCooldown: false, responseTimer: setTimeout(...)}` (the
previous `cooldownTimer`/`lastResponseTime`/`isInCooldown` fields are
dropped), schedules the response task for `config.app.responseDelayMs`,
and persists an active `response` row. -/
def startResponseTimer (cfg : Config) (s : SchedState) (chatId : String) : SchedState :=
  let s1 := (cancelTimer s chatId).1
  let tid := s1.nextTaskId
  let s2 : SchedState :=
    { s1 with
      timers := mapSet s1.timers chatId
        { chatId := chatId, isInCooldown := false, responseTimer := some tid },
      pending := s1.pending ++
        [{ id := tid, chatId := chatId, kind := TimerKind.response,
           fireAt := s1.now + cfg.responseDelayMs }],
      nextTaskId := tid + 1 }
  { s2 with ledger :=
      storageStartTimer s2.ledger chatId TimerKind.response (some cfg.responseDelayMs) s2.now }

/-- `TimerService.startCooldown(chatId, duration)`: fetches (or freshly
creates) the chat's state, clears an existing cooldown timer, clears any
response timer as well, sets `isInCooldown := true` and
`lastResponseTime := now`, schedules the cooldown-end task for `duration`,
writes the cooldown through to the ledger, and emits `COOLDOWN_STARTED`. -/
def startCooldown (_cfg : Config) (s : SchedState) (chatId : String) (duration : Int) :
    SchedState :=
  let ts0 := (s.timers chatId).getD { chatId := chatId, isInCooldown := false }
  let p1 := clearTimeoutOpt s.pending ts0.cooldownTimer
  let p2 := clearTimeoutOpt p1 ts0.responseTimer
  let ts1 := { ts0 with responseTimer := none }
  let tid := s.nextTaskId
  let ts2 := { ts1 with
    isInCooldown := true,
    lastResponseTime := some s.now,
    cooldownTimer := some tid }
  { s with
    timers := mapSet s.timers chatId ts2,
    pending := p2 ++
      [{ id := tid, chatId := chatId, kind := TimerKind.cooldown, fireAt := s.now + duration }],
    nextTaskId := tid + 1,
    ledger := storageStartCooldown s.ledger chatId duration s.now,
    events := s.events ++ [Event.cooldownStarted chatId duration] }

/-- `TimerService.handleGiladResponse(chatId)`: cancels any active response
timer, starts the configured cooldown, then emits `GILAD_RESPONDED`. -/
def handleGiladResponse (cfg : Config) (s : SchedState) (chatId : String) : SchedState :=
  let s1 := (cancelTimer s chatId).1
  let s2 := startCooldown cfg s1 chatId cfg.cooldownPeriodMs
  { s2 with events := s2.events ++ [Event.giladResponded chatId] }

/-- `TimerService.isInCooldown(chatId)`: the synchronously returned value,
`timerState?.isInCooldown ?? false` (the piggy-backed asynchronous ledger
refresh only mutates the flag later and does not affect the return). -/
def isInCooldown (s : SchedState) (chatId : String) : Bool :=
  ((s.timers chatId).map (fun ts => ts.isInCooldown)).getD false

/-- `TimerService.getRemainingTime(chatId)`: `0` with no state; in cooldown
with a truthy `lastResponseTime`, `max 0 (config.app.cooldownPeriodMs −
(now − lastResponseTime))`; else the configured response delay when a
response timer is pending (an approximation); else `0`. -/
def getRemainingTime (cfg : Config) (s : SchedState) (chatId : String) : Int :=
  match s.timers chatId with
  | none => 0
  | some ts =>
    if ts.isInCooldown && jsTruthy ts.lastResponseTime then
      max 0 (cfg.cooldownPeriodMs - (s.now - ts.lastResponseTime.getD 0))
    else if ts.responseTimer.isSome then
      cfg.responseDelayMs
    else 0

/-- The response-timer expiry callback (the closure `startResponseTimer`
passes to `setTimeout`), firing for task `t`: the one-shot task is
consumed, the state's `responseTimer` reference is removed, the
caller-supplied callback runs (`callbackOk` says whether it returned or
threw), and only on success is `RESPONSE_TIMER_EXPIRED` emitted — a throw
is caught by the surrounding `try/catch` and merely logged. -/
def fireResponseTimer (s : SchedState) (t : Task) (callbackOk : Bool) : SchedState :=
  let p := s.pending.filter (fun u => u.id ≠ t.id)
  let timers' := match s.timers t.chatId with
    | some ts => mapSet s.timers t.chatId { ts with responseTimer := none }
    | none => s.timers
  let s1 := { s with pending := p, timers := timers' }
  if callbackOk then
    { s1 with events := s1.events ++ [Event.responseTimerExpired t.chatId] }
  else s1

/-- `TimerService.isReady()`. -/
def isReady (s : SchedState) : Bool := s.isInitialized

/-! ## Recovery routine (`TimerService.restoreTimersFromDatabase`) -/

/-- The cooldown-restore step for one conversation: if the ledger says the
chat is in cooldown with positive remaining time, reconstruct
`isInCooldown := true`, `lastResponseTime := now − (configuredDuration −
remaining)`, and reschedule the cooldown-end task for `remaining`. An
expired ledger cooldown is left untouched. -/
def restoreConvCooldown (cfg : Config) (s : SchedState) (chatId : String) : SchedState :=
  if storageIsInCooldown s.ledger chatId s.now then
    let remaining := storageGetRemainingCooldownTime s.ledger chatId s.now
    if decide (remaining > 0) then
      let tid := s.nextTaskId
      { s with
        timers := mapSet s.timers chatId
          { chatId := chatId, isInCooldown := true,
            lastResponseTime := some (s.now - (cfg.cooldownPeriodMs - remaining)),
            cooldownTimer := some tid },
        pending := s.pending ++
          [{ id := tid, chatId := chatId, kind := TimerKind.cooldown,
             fireAt := s.now + remaining }],
        nextTaskId := tid + 1 }
    else s
  else s

/-- The response-row restore step for one active `response` ledger row: with
a truthy `end_time` and positive remaining time, fetch (or freshly create)
the chat's state, attach a restored response task, and store it back; with
non-positive remaining time, end the row in the database instead. -/
def restoreConvResponseRow (s : SchedState) (chatId : String) (row : TimerRow) : SchedState :=
  match row.endTime with
  | none => s
  | some e =>
    if e == 0 then s
    else
      let endMs := e * 1000
      let remaining := endMs - s.now
      if decide (remaining > 0) then
        let ts0 := (s.timers chatId).getD { chatId := chatId, isInCooldown := false }
        let tid := s.nextTaskId
        { s with
          timers := mapSet s.timers chatId { ts0 with responseTimer := some tid },
          pending := s.pending ++
            [{ id := tid, chatId := chatId, kind := TimerKind.response, fireAt := endMs }],
          nextTaskId := tid + 1 }
      else
        { s with ledger := storageEndTimer s.ledger row.id s.now }

/-- Restoration for one conversation: the cooldown step, then each active
`response` row of the (possibly updated) ledger in query order. -/
def restoreConv (cfg : Config) (s : SchedState) (chatId : String) : SchedState :=
  let s1 := restoreConvCooldown cfg s chatId
  (storageGetActiveTimers s1.ledger chatId (some TimerKind.response)).foldl
    (fun acc row => restoreConvResponseRow acc chatId row) s1

/-- `restoreTimersFromDatabase`: every active conversation is restored in
turn. -/
def restoreTimersFromDatabase (cfg : Config) (s : SchedState) : SchedState :=
  (getActiveConversations s.ledger).foldl (fun acc cid => restoreConv cfg acc cid) s

/-- `initializeService`: restore from the database, then set
`isInitialized := true` (the periodic cleanup cron is scheduled in
between but first runs much later). -/
def initializeService (cfg : Config) (s : SchedState) : SchedState :=
  { restoreTimersFromDatabase cfg s with isInitialized := true }

/-! ## Well-formedness of reachable service states -/

/-- Every pending response task is owned by the `responseTimer` handle of its
conversation's in-memory state: the `setTimeout` handle the map holds for
a chat is the only way a pending response callback for that chat exists.
`startResponseTimer` establishes this (it stores the handle it creates)
and every operation maintains it. -/
def ResponseTasksOwned (s : SchedState) : Prop :=
  ∀ t ∈ s.pending, t.kind = TimerKind.response →
    (s.timers t.chatId).bind TimerState.responseTimer = some t.id

/-- `setTimeout` never reuses a live handle: ids of pending tasks are below
the allocation counter. -/
def TaskIdsFresh (s : SchedState) : Prop :=
  ∀ t ∈ s.pending, t.id < s.nextTaskId

/-- The supersession invariant of the spec's data model: a conversation in
cooldown has no pending response-timer handle. -/
def SupersessionInvariant (s : SchedState) : Prop :=
  ∀ c ts, s.timers c = some ts → ts.isInCooldown = true → ts.responseTimer = none

instance (s : SchedState) : Decidable (ResponseTasksOwned s) :=
  inferInstanceAs (Decidable (∀ t ∈ s.pending, t.kind = TimerKind.response →
    (s.timers t.chatId).bind TimerState.responseTimer = some t.id))

instance (s : SchedState) : Decidable (TaskIdsFresh s) :=
  inferInstanceAs (Decidable (∀ t ∈ s.pending, t.id < s.nextTaskId))

/-- A task `t` of chat `c` that is a response timer. -/
def isResponseFor (c : String) (t : Task) : Bool :=
  t.chatId == c && decide (t.kind = TimerKind.response)

/-- The pending response tasks of a conversation. -/
def responseTasksFor (s : SchedState) (c : String) : List Task :=
  s.pending.filter (isResponseFor c)

/-- Whether `a` is emitted before `b` (first occurrences) in an event
trace. -/
def emittedBefore (evs : List Event) (a b : Event) : Bool :=
  match evs.findIdx? (fun e => e == a), evs.findIdx? (fun e => e == b) with
  | some i, some j => decide (i < j)
  | _, _ => false

/-! ## Concrete states used to instantiate the theorems -/

/-- An empty ledger. -/
def emptyLedger : Ledger :=
  { conversations := [], cooldowns := [], timerRows := [], nextRowId := 0 }

/-- The service's in-memory state right after the constructor, before
`initializeService` has run, over ledger `l` at wall clock `nowMs`. -/
def initialState (l : Ledger) (nowMs : Int) : SchedState :=
  { timers := fun _ => none, pending := [], events := [], ledger := l,
    now := nowMs, nextTaskId := 0, isInitialized := false }

/-- An initialized service with no timer state at all. -/
def sEmpty : SchedState :=
  { timers := fun _ => none, pending := [], events := [], ledger := emptyLedger,
    now := 1000, nextTaskId := 0, isInitialized := true }

/-- A service in which `chat1` is in a cooldown started at `t = 5000`. -/
def sCooldown : SchedState :=
  { timers := fun k =>
      if k = "chat1" then
        some { chatId := "chat1", responseTimer := none, cooldownTimer := some 0,
               lastResponseTime := some 5000, isInCooldown := true }
      else none,
    pending := [{ id := 0, chatId := "chat1", kind := TimerKind.cooldown, fireAt := 18005000 }],
    events := [], ledger := emptyLedger, now := 10000, nextTaskId := 1, isInitialized := true }

/-- A service with a pending response timer for `chat1` (the state
`startResponseTimer` leaves behind on `sEmpty`). -/
def sPendingResponse : SchedState := startResponseTimer defaultConfig sEmpty "chat1"

/-- The constructor-time state over an empty ledger: recovery has not run,
`isInitialized` is false. -/
def sUninit : SchedState := initialState emptyLedger 1000

/-! ## C10 — totality and neutrality of the query surface -/

/-- C10: for a conversation with no timer state at all, the in-memory queries
are total (the embedding's functions return, never throw) and yield the
neutral values: `isInCooldown` is `false` and `getRemainingTime` is `0`. -/
theorem queries_neutral_on_missing (cfg : Config) (s : SchedState) (c : String)
    (h : s.timers c = none) :
    isInCooldown s c = false ∧ getRemainingTime cfg s c = 0 := by
  simp [isInCooldown, getRemainingTime, h]

/-- C10, instantiated: the queries on `sEmpty` for an unknown chat id. -/
theorem queries_neutral_on_missing_witness :
    isInCooldown sEmpty "nochat" = false ∧ getRemainingTime defaultConfig sEmpty "nochat" = 0 :=
  queries_neutral_on_missing defaultConfig sEmpty "nochat" rfl

/-! ## C9 — callback failure does not corrupt the state machine -/

/-- C9: when the caller-supplied response callback throws, the failure is
absorbed (the embedding of the expiry closure is total): the `timers` map,
the pending tasks and the ledger are exactly what they are when the
callback succeeds — only the success event is missing — and in either case
the response timer is already consumed (`responseTimer = none`). -/
theorem fireResponseTimer_failure_no_corruption (s : SchedState) (t : Task) :
    (fireResponseTimer s t false).timers = (fireResponseTimer s t true).timers ∧
    (fireResponseTimer s t false).pending = (fireResponseTimer s t true).pending ∧
    (fireResponseTimer s t false).ledger = (fireResponseTimer s t true).ledger ∧
    ∀ ts, (fireResponseTimer s t false).timers t.chatId = some ts → ts.responseTimer = none := by
  refine ⟨rfl, rfl, rfl, ?_⟩
  intro ts hts
  cases hs : s.timers t.chatId with
  | none =>
    simp [fireResponseTimer, hs] at hts
  | some ts0 =>
    simp [fireResponseTimer, hs, mapSet] at hts
    subst hts
    rfl

/-! ## C5 — event order of `handleGiladResponse` -/

/-- C5 (amended): `handleGiladResponse` emits, after an optional
`TIMER_CANCELLED`, first `COOLDOWN_STARTED` and only then
`GILAD_RESPONDED` — the cooldown-start event precedes the owner-responded
event, the reverse of the order the spec states. -/
theorem handleGilad_event_order (cfg : Config) (s : SchedState) (c : String) :
    (handleGiladResponse cfg s c).events =
      s.events ++
      (if ((s.timers c).bind TimerState.responseTimer).isSome then
        [Event.timerCancelled c]
       else []) ++
      [Event.cooldownStarted c cfg.cooldownPeriodMs, Event.giladResponded c] := by
  cases hs : s.timers c with
  | none => simp [handleGiladResponse, startCooldown, cancelTimer, hs]
  | some ts =>
    cases hr : ts.responseTimer with
    | none => simp [handleGiladResponse, startCooldown, cancelTimer, hs, hr]
    | some id => simp [handleGiladResponse, startCooldown, cancelTimer, hs, hr, mapSet]

/-- C5, refuted as stated: on a fresh conversation the emitted trace is
`[COOLDOWN_STARTED, GILAD_RESPONDED]`; `GILAD_RESPONDED` (the
`OwnerResponded` event) is *not* emitted before the cooldown-start event —
the opposite order holds. -/
theorem handleGilad_order_cex :
    (handleGiladResponse defaultConfig sEmpty "chat1").events =
      [Event.cooldownStarted "chat1" 18000000, Event.giladResponded "chat1"] ∧
    emittedBefore (handleGiladResponse defaultConfig sEmpty "chat1").events
      (Event.giladResponded "chat1") (Event.cooldownStarted "chat1" 18000000) = false ∧
    emittedBefore (handleGiladResponse defaultConfig sEmpty "chat1").events
      (Event.cooldownStarted "chat1" 18000000) (Event.giladResponded "chat1") = true := by
  decide

/-! ## C6 — (absence of) startup gating -/

/-- C6 (amended): the service records recovery completion in
`isInitialized` (exposed through `isReady`, set by `initializeService`),
but neither `startResponseTimer` nor `startCooldown` consults it: both
take full effect even when called before recovery has completed. -/
theorem startCalls_ignore_readiness (cfg : Config) (s : SchedState) (c : String) (d : Int)
    (_h : isReady s = false) :
    ((startResponseTimer cfg s c).timers c).isSome = true ∧
    isInCooldown (startCooldown cfg s c d) c = true ∧
    isReady (initializeService cfg s) = true := by
  refine ⟨?_, ?_, rfl⟩
  · simp [startResponseTimer, mapSet]
  · simp [startCooldown, isInCooldown, mapSet]

/-- C6, instantiated on the constructor-time state. -/
theorem startCalls_ignore_readiness_witness :
    ((startResponseTimer defaultConfig sUninit "chat1").timers "chat1").isSome = true ∧
    isInCooldown (startCooldown defaultConfig sUninit "chat1" 500) "chat1" = true ∧
    isReady (initializeService defaultConfig sUninit) = true :=
  startCalls_ignore_readiness defaultConfig sUninit "chat1" 500 rfl

/-- C6, refuted as stated: before recovery has completed
(`isReady = false`), a `startResponseTimer` call already takes effect —
the timer state and the pending response task exist. -/
theorem start_before_recovery_takes_effect_cex :
    isReady sUninit = false ∧
    (startResponseTimer defaultConfig sUninit "chat1").timers "chat1" =
      some { chatId := "chat1", isInCooldown := false, responseTimer := some 0 } ∧
    responseTasksFor (startResponseTimer defaultConfig sUninit "chat1") "chat1" ≠ [] := by
  decide

/-! ## C7 — `getRemainingTime` -/

/-- C7 (amended): for a conversation in cooldown, `getRemainingTime` is
`max 0 (config.app.cooldownPeriodMs − (now − lastResponseTime))` — the
*configured* cooldown period, not the duration of the `startCooldown`
call that opened the window; for a pending response timer it is the
configured response delay. (`s.now ≠ 0` keeps the stored
`lastResponseTime` truthy, as any real `Date.now()` is.) -/
theorem getRemainingTime_uses_configured_period (cfg : Config) (s : SchedState) (c : String)
    (d : Int) (h : s.now ≠ 0) :
    (∀ t : Int, getRemainingTime cfg { startCooldown cfg s c d with now := t } c =
        max 0 (cfg.cooldownPeriodMs - (t - s.now))) ∧
    (∀ ts, s.timers c = some ts → ts.isInCooldown = false → ts.responseTimer.isSome = true →
        getRemainingTime cfg s c = cfg.responseDelayMs) := by
  constructor
  · intro t
    simp [startCooldown, getRemainingTime, mapSet, jsTruthy, h]
  · intro ts hts hcool hresp
    simp [getRemainingTime, hts, hcool, hresp]

/-- C7, instantiated: a cooldown of duration `1000` started at `now = 1000`
under the 5-hour configuration. -/
theorem getRemainingTime_uses_configured_period_witness :
    (∀ t : Int, getRemainingTime defaultConfig
        { startCooldown defaultConfig sEmpty "chat1" 1000 with now := t } "chat1" =
        max 0 (defaultConfig.cooldownPeriodMs - (t - sEmpty.now))) ∧
    (∀ ts, sEmpty.timers "chat1" = some ts → ts.isInCooldown = false →
        ts.responseTimer.isSome = true →
        getRemainingTime defaultConfig sEmpty "chat1" = defaultConfig.responseDelayMs) :=
  getRemainingTime_uses_configured_period defaultConfig sEmpty "chat1" 1000 (by decide)

/-- C7, refuted as stated: `startCooldown("chat1", 1000)` at `now = 1000`
yields `getRemainingTime = 18000000` (the configured period), not the
claim's `max 0 (1000 − (now − lastResponseTime)) = 1000`. -/
theorem getRemainingTime_ignores_call_duration_cex :
    getRemainingTime defaultConfig (startCooldown defaultConfig sEmpty "chat1" 1000) "chat1"
      = 18000000 ∧
    getRemainingTime defaultConfig (startCooldown defaultConfig sEmpty "chat1" 1000) "chat1"
      ≠ 1000 := by
  decide

/-! ## C8 — `cancelTimer` -/

/-- C8: `cancelTimer` touches only the response timer (a pure-cooldown state
is left intact), is safe and a no-op when nothing is pending — also
immediately after a first cancel — but, being declared `void` with only
bare `return` statements, it hands every caller `undefined`: it does *not*
return the boolean "was a timer cancelled" (the internal `cancelled` flag
only decides whether `TIMER_CANCELLED` is emitted). -/
theorem cancelTimer_void_and_idempotent :
    (cancelTimer sEmpty "chat1").2 = JsValue.undef ∧
    (cancelTimer sEmpty "chat1").2 ≠ JsValue.jsBool false ∧
    (cancelTimer sPendingResponse "chat1").2 = JsValue.undef ∧
    (cancelTimer sCooldown "chat1").1.timers "chat1" = sCooldown.timers "chat1" ∧
    (cancelTimer (cancelTimer sPendingResponse "chat1").1 "chat1").2 = JsValue.undef ∧
    (cancelTimer (cancelTimer sPendingResponse "chat1").1 "chat1").1.events =
      (cancelTimer sPendingResponse "chat1").1.events ∧
    (cancelTimer (cancelTimer sPendingResponse "chat1").1 "chat1").1.pending =
      (cancelTimer sPendingResponse "chat1").1.pending ∧
    (cancelTimer (cancelTimer sPendingResponse "chat1").1 "chat1").1.timers "chat1" =
      (cancelTimer sPendingResponse "chat1").1.timers "chat1" := by
  decide

/-! ## Cancellation lemmas shared by C1 and C4 -/

lemma mem_of_mem_clearTimeout {p : List Task} {id : Nat} {t : Task}
    (h : t ∈ clearTimeout p id) : t ∈ p ∧ t.id ≠ id := by
  simpa [clearTimeout] using h

lemma mem_of_mem_clearTimeoutOpt {p : List Task} {o : Option Nat} {t : Task}
    (h : t ∈ clearTimeoutOpt p o) : t ∈ p := by
  cases o with
  | none => simpa [clearTimeoutOpt] using h
  | some id => exact (mem_of_mem_clearTimeout (by simpa [clearTimeoutOpt] using h)).1

lemma cancelTimer_fst_pending_sub {s : SchedState} {c : String} {t : Task}
    (h : t ∈ ((cancelTimer s c).1).pending) : t ∈ s.pending := by
  cases hs : s.timers c with
  | none =>
    simp [cancelTimer, hs] at h
    exact h
  | some ts =>
    cases hr : ts.responseTimer with
    | none =>
      simp [cancelTimer, hs, hr] at h
      exact h
    | some id =>
      have h' : t ∈ clearTimeout s.pending id := by
        simp only [cancelTimer, hs, hr] at h
        exact h
      exact (mem_of_mem_clearTimeout h').1

lemma cancelTimer_fst_counters (s : SchedState) (c : String) :
    ((cancelTimer s c).1).nextTaskId = s.nextTaskId ∧ ((cancelTimer s c).1).now = s.now := by
  cases hs : s.timers c with
  | none => simp [cancelTimer, hs]
  | some ts =>
    cases hr : ts.responseTimer with
    | none => simp [cancelTimer, hs, hr]
    | some id => simp [cancelTimer, hs, hr]

/-- After `cancelTimer(c)`, no pending response task of conversation `c`
survives (given that pending response tasks are owned by their state's
handle). -/
lemma cancelTimer_clears_response_tasks {s : SchedState} (c : String)
    (h : ResponseTasksOwned s) :
    ∀ t ∈ ((cancelTimer s c).1).pending, t.chatId = c → t.kind ≠ TimerKind.response := by
  intro t ht hc hk
  cases hs : s.timers c with
  | none =>
    have ht' : t ∈ s.pending := cancelTimer_fst_pending_sub ht
    have hb := h t ht' hk
    rw [hc, hs] at hb
    simp at hb
  | some ts =>
    cases hr : ts.responseTimer with
    | none =>
      have ht' : t ∈ s.pending := cancelTimer_fst_pending_sub ht
      have hb := h t ht' hk
      rw [hc, hs] at hb
      simp [hr] at hb
    | some id =>
      have h' : t ∈ clearTimeout s.pending id := by
        simp only [cancelTimer, hs, hr] at ht
        exact ht
      obtain ⟨ht', hne⟩ := mem_of_mem_clearTimeout h'
      have hb := h t ht' hk
      rw [hc, hs] at hb
      simp [hr] at hb
      exact hne hb.symm

/-! ## C1 — owner response pre-empts the automated reply -/

/-- C1: after `handleGiladResponse(c)`, the in-memory state of `c` has
`isInCooldown = true` and no pending response task for `c` remains — the
response callback that would have produced the automated reply can no
longer fire. The hypothesis is the handle-ownership well-formedness that
`startResponseTimer` establishes for every pending response task. -/
theorem handleGilad_cooldown_and_preemption (cfg : Config) (s : SchedState) (c : String)
    (h : ResponseTasksOwned s) :
    isInCooldown (handleGiladResponse cfg s c) c = true ∧
    ∀ t ∈ (handleGiladResponse cfg s c).pending, t.chatId = c → t.kind ≠ TimerKind.response := by
  constructor
  · simp [handleGiladResponse, startCooldown, isInCooldown, mapSet]
  · intro t ht hc hk
    simp only [handleGiladResponse, startCooldown] at ht
    rcases List.mem_append.mp ht with h1 | h1
    · exact cancelTimer_clears_response_tasks c h t
        (mem_of_mem_clearTimeoutOpt (mem_of_mem_clearTimeoutOpt h1)) hc hk
    · rw [List.mem_singleton] at h1
      rw [h1] at hk
      exact TimerKind.noConfusion hk

/-- C1, instantiated on a state with a live response timer for `chat1`. -/
theorem handleGilad_cooldown_and_preemption_witness :
    isInCooldown (handleGiladResponse defaultConfig sPendingResponse "chat1") "chat1" = true ∧
    ∀ t ∈ (handleGiladResponse defaultConfig sPendingResponse "chat1").pending,
      t.chatId = "chat1" → t.kind ≠ TimerKind.response :=
  handleGilad_cooldown_and_preemption defaultConfig sPendingResponse "chat1" (by decide)

/-! ## C4 — what `startResponseTimer` does to the rest of the state -/

/-- C4 (amended): `startResponseTimer(c)` *replaces* `c`'s `TimerState`
with a fresh record — `isInCooldown := false`, `cooldownTimer := none`,
`lastResponseTime := none` — so the cooldown portion is reset rather than
left untouched; it does guarantee exactly one pending response task for
`c` (the newly scheduled one) and that every previously pending response
task of `c` is cancelled before the call returns. -/
theorem startResponseTimer_resets_state_unique_timer (cfg : Config) (s : SchedState)
    (c : String) (h1 : ResponseTasksOwned s) (h2 : TaskIdsFresh s) :
    (startResponseTimer cfg s c).timers c =
      some { chatId := c, isInCooldown := false, responseTimer := some s.nextTaskId } ∧
    responseTasksFor (startResponseTimer cfg s c) c =
      [{ id := s.nextTaskId, chatId := c, kind := TimerKind.response,
         fireAt := s.now + cfg.responseDelayMs }] ∧
    ∀ t ∈ s.pending, isResponseFor c t = true → t ∉ (startResponseTimer cfg s c).pending := by
  obtain ⟨hnid, hnow⟩ := cancelTimer_fst_counters s c
  refine ⟨?_, ?_, ?_⟩
  · simp [startResponseTimer, mapSet, hnid]
  · have hnil : ((cancelTimer s c).1).pending.filter (isResponseFor c) = [] := by
      rw [List.filter_eq_nil_iff]
      intro t ht hres
      rcases Bool.and_eq_true_iff.mp hres with ⟨hchat, hkind⟩
      exact cancelTimer_clears_response_tasks c h1 t ht (by simpa using hchat)
        (of_decide_eq_true hkind)
    simp [startResponseTimer, responseTasksFor, List.filter_append, hnil, hnid, hnow,
      isResponseFor]
  · intro t ht hres hmem
    simp only [startResponseTimer] at hmem
    rcases List.mem_append.mp hmem with hin | hin
    · rcases Bool.and_eq_true_iff.mp hres with ⟨hchat, hkind⟩
      exact cancelTimer_clears_response_tasks c h1 t hin (by simpa using hchat)
        (of_decide_eq_true hkind)
    · rw [List.mem_singleton] at hin
      have hlt := h2 t ht
      rw [hin, hnid] at hlt
      exact lt_irrefl _ hlt

/-- C4, instantiated on a state with a live response timer for `chat1`. -/
theorem startResponseTimer_resets_state_unique_timer_witness :
    (startResponseTimer defaultConfig sPendingResponse "chat1").timers "chat1" =
      some { chatId := "chat1", isInCooldown := false,
             responseTimer := some sPendingResponse.nextTaskId } ∧
    responseTasksFor (startResponseTimer defaultConfig sPendingResponse "chat1") "chat1" =
      [{ id := sPendingResponse.nextTaskId, chatId := "chat1", kind := TimerKind.response,
         fireAt := sPendingResponse.now + defaultConfig.responseDelayMs }] ∧
    ∀ t ∈ sPendingResponse.pending, isResponseFor "chat1" t = true →
      t ∉ (startResponseTimer defaultConfig sPendingResponse "chat1").pending :=
  startResponseTimer_resets_state_unique_timer defaultConfig sPendingResponse "chat1"
    (by decide) (by decide)

/-- C4, refuted as stated: on a conversation in cooldown,
`startResponseTimer` flips `isInCooldown` from `true` to `false` and drops
`cooldownTimer` and `lastResponseTime` — the cooldown portion of the state
is not left unchanged. -/
theorem startResponseTimer_touches_cooldown_cex :
    isInCooldown sCooldown "chat1" = true ∧
    (sCooldown.timers "chat1").bind TimerState.cooldownTimer = some 0 ∧
    (sCooldown.timers "chat1").bind TimerState.lastResponseTime = some 5000 ∧
    isInCooldown (startResponseTimer defaultConfig sCooldown "chat1") "chat1" = false ∧
    ((startResponseTimer defaultConfig sCooldown "chat1").timers "chat1").bind
      TimerState.cooldownTimer = none ∧
    ((startResponseTimer defaultConfig sCooldown "chat1").timers "chat1").bind
      TimerState.lastResponseTime = none := by
  decide

/-! ## C3 — the supersession invariant across restoration -/

/-- A ledger reachable before a crash: `handleGiladResponse` within the
response window cancels the in-memory timer but never ends the persisted
`response` row (`cancelTimer` does no ledger write), then persists the
cooldown — leaving an active cooldown row *and* an active, unexpired
response row for the same conversation. -/
def bothRowsLedger : Ledger :=
  { conversations := [{ chatId := "chat1", isActive := true }],
    cooldowns := [{ convId := "chat1", startTime := 900, endTime := 2000, isActive := true }],
    timerRows := [{ id := 0, convId := "chat1", timerType := TimerKind.response,
                    startTime := 990, endTime := some 1500, isActive := true }],
    nextRowId := 1 }

/-- C3, refuted on the code: restoring from `bothRowsLedger` at
`now = 1000000 ms` first reconstructs the cooldown state
(`isInCooldown = true`) and then attaches a restored response timer to
that same state — the restored state has `isInCooldown = true` *and*
`responseTimer` set, violating the supersession invariant that every
normal-operation transition maintains. -/
theorem restore_violates_supersession :
    (restoreTimersFromDatabase defaultConfig (initialState bothRowsLedger 1000000)).timers
        "chat1" =
      some { chatId := "chat1", responseTimer := some 1, cooldownTimer := some 0,
             lastResponseTime := some (-16000000), isInCooldown := true } ∧
    ¬ SupersessionInvariant
        (restoreTimersFromDatabase defaultConfig (initialState bothRowsLedger 1000000)) := by
  refine ⟨by decide, fun hInv => ?_⟩
  have hr := hInv "chat1"
    { chatId := "chat1", responseTimer := some 1, cooldownTimer := some 0,
      lastResponseTime := some (-16000000), isInCooldown := true } (by decide) rfl
  simp at hr

/-! ## C2 — the recovery round-trip -/

/-- A ledger holding exactly one conversation `c` with one active cooldown
row `[startTime = st, endTime = endT]` (seconds). -/
def singleCooldownLedger (c : String) (st endT : Int) : Ledger :=
  { conversations := [{ chatId := c, isActive := true }],
    cooldowns := [{ convId := c, startTime := st, endTime := endT, isActive := true }],
    timerRows := [], nextRowId := 0 }

lemma single_isInCooldown_future {c : String} {st endT nowMs : Int}
    (h : toSec nowMs < endT) :
    storageIsInCooldown (singleCooldownLedger c st endT) c nowMs = true := by
  simp [storageIsInCooldown, getConversation, singleCooldownLedger, h]

lemma single_remaining_future {c : String} {st endT nowMs : Int}
    (h : toSec nowMs < endT) :
    storageGetRemainingCooldownTime (singleCooldownLedger c st endT) c nowMs =
      (endT - toSec nowMs) * 1000 := by
  simp [storageGetRemainingCooldownTime, getConversation, singleCooldownLedger,
    bestEndTime, h]

lemma single_isInCooldown_past {c : String} {st endT nowMs : Int}
    (h : endT ≤ toSec nowMs) :
    storageIsInCooldown (singleCooldownLedger c st endT) c nowMs = false := by
  simp [storageIsInCooldown, getConversation, singleCooldownLedger,
    show ¬(toSec nowMs < endT) from by omega]

lemma restoreConvCooldown_ledger (cfg : Config) (s : SchedState) (c : String) :
    (restoreConvCooldown cfg s c).ledger = s.ledger := by
  simp only [restoreConvCooldown]
  split
  · split <;> rfl
  · rfl

lemma storageGetActiveTimers_nil {l : Ledger} (c : String) (k : Option TimerKind)
    (h : l.timerRows = []) : storageGetActiveTimers l c k = [] := by
  unfold storageGetActiveTimers
  cases getConversation l c <;> simp [h, orderByStartDesc]

lemma restoreConv_no_rows (cfg : Config) (s : SchedState) (c : String)
    (h : s.ledger.timerRows = []) :
    restoreConv cfg s c = restoreConvCooldown cfg s c := by
  simp only [restoreConv]
  rw [storageGetActiveTimers_nil c _ (by rw [restoreConvCooldown_ledger]; exact h)]
  rfl

lemma restore_single_eq_cooldownStep (cfg : Config) (c : String) (st endT nowMs : Int) :
    restoreTimersFromDatabase cfg (initialState (singleCooldownLedger c st endT) nowMs) =
      restoreConvCooldown cfg (initialState (singleCooldownLedger c st endT) nowMs) c := by
  show List.foldl _ _ (getActiveConversations (singleCooldownLedger c st endT)) = _
  rw [show getActiveConversations (singleCooldownLedger c st endT) = [c] from rfl]
  show restoreConv cfg (initialState (singleCooldownLedger c st endT) nowMs) c = _
  exact restoreConv_no_rows cfg _ c rfl

/-- Recovery over the single-cooldown ledger with the row still in the
future: the explicit reconstructed state. -/
lemma restore_single_future {cfg : Config} {c : String} {st endT nowMs : Int}
    (h : toSec nowMs < endT) :
    restoreTimersFromDatabase cfg (initialState (singleCooldownLedger c st endT) nowMs) =
      { timers := mapSet (fun _ => none) c
          { chatId := c, responseTimer := none, cooldownTimer := some 0,
            lastResponseTime :=
              some (nowMs - (cfg.cooldownPeriodMs - (endT - toSec nowMs) * 1000)),
            isInCooldown := true },
        pending := [{ id := 0, chatId := c, kind := TimerKind.cooldown,
                      fireAt := nowMs + (endT - toSec nowMs) * 1000 }],
        events := [], ledger := singleCooldownLedger c st endT,
        now := nowMs, nextTaskId := 1, isInitialized := false } := by
  have hpos : (0 : Int) < (endT - toSec nowMs) * 1000 := by omega
  rw [restore_single_eq_cooldownStep]
  simp only [restoreConvCooldown, initialState]
  simp [single_isInCooldown_future h, single_remaining_future h, hpos]

/-- Recovery over the single-cooldown ledger with the row already expired:
nothing is restored and the ledger is left untouched. -/
lemma restore_single_past {cfg : Config} {c : String} {st endT nowMs : Int}
    (h : endT ≤ toSec nowMs) :
    restoreTimersFromDatabase cfg (initialState (singleCooldownLedger c st endT) nowMs) =
      initialState (singleCooldownLedger c st endT) nowMs := by
  rw [restore_single_eq_cooldownStep]
  simp only [restoreConvCooldown, initialState]
  simp [single_isInCooldown_past h]

/-- C2 (amended): restarting over a ledger whose only row is an active
cooldown for `c`. If `endTime` is still in the future, recovery yields
`isInCooldown(c) = true` and `getRemainingTime(c)` equal (exactly, at the
instant of recovery) to the persisted remaining time. If `endTime` is in
the past, recovery yields `isInCooldown(c) = false` and reschedules
nothing — but it does **not** mark the row inactive: the ledger is
returned unchanged, the stale row still flagged active (it is only
ignored because every cooldown query filters on `end_time > now`). The
truthiness hypothesis rules out the reconstructed `lastResponseTime`
landing exactly on `0`, which JS would treat as falsy. -/
theorem recovery_roundtrip (cfg : Config) (c : String) (st endT nowMs : Int) :
    (toSec nowMs < endT →
      nowMs - (cfg.cooldownPeriodMs - (endT - toSec nowMs) * 1000) ≠ 0 →
      isInCooldown
          (restoreTimersFromDatabase cfg (initialState (singleCooldownLedger c st endT) nowMs))
          c = true ∧
      getRemainingTime cfg
          (restoreTimersFromDatabase cfg (initialState (singleCooldownLedger c st endT) nowMs))
          c = (endT - toSec nowMs) * 1000 ∧
      storageGetRemainingCooldownTime (singleCooldownLedger c st endT) c nowMs =
        (endT - toSec nowMs) * 1000) ∧
    (endT ≤ toSec nowMs →
      isInCooldown
          (restoreTimersFromDatabase cfg (initialState (singleCooldownLedger c st endT) nowMs))
          c = false ∧
      (restoreTimersFromDatabase cfg (initialState (singleCooldownLedger c st endT) nowMs)).pending
        = [] ∧
      (restoreTimersFromDatabase cfg (initialState (singleCooldownLedger c st endT) nowMs)).ledger
        = singleCooldownLedger c st endT) := by
  constructor
  · intro h htruthy
    have hpos : (0 : Int) < (endT - toSec nowMs) * 1000 := by omega
    refine ⟨?_, ?_, single_remaining_future h⟩
    · rw [restore_single_future h]
      simp [isInCooldown, mapSet]
    · rw [restore_single_future h]
      have hbe : ((nowMs - (cfg.cooldownPeriodMs - (endT - toSec nowMs) * 1000)) == 0)
          = false := by
        simpa using htruthy
      simp [getRemainingTime, mapSet, jsTruthy, hbe]
      omega
  · intro h
    rw [restore_single_past h]
    exact ⟨rfl, rfl, rfl⟩

/-- C2, instantiated: `endTime = 2000 s`, recovery at `now = 1000000 ms`
(`= 1000 s`), so the persisted remaining time is `1000000 ms`. -/
theorem recovery_roundtrip_witness :
    isInCooldown
        (restoreTimersFromDatabase defaultConfig
          (initialState (singleCooldownLedger "chat1" 0 2000) 1000000))
        "chat1" = true ∧
    getRemainingTime defaultConfig
        (restoreTimersFromDatabase defaultConfig
          (initialState (singleCooldownLedger "chat1" 0 2000) 1000000))
        "chat1" = (2000 - toSec 1000000) * 1000 ∧
    storageGetRemainingCooldownTime (singleCooldownLedger "chat1" 0 2000) "chat1" 1000000 =
      (2000 - toSec 1000000) * 1000 :=
  (recovery_roundtrip defaultConfig "chat1" 0 2000 1000000).1 (by decide) (by decide)

/-- C2, refuted as stated: with the row's `endTime` already past
(`endTime = 10 s`, recovery at `now = 1000 s`), recovery leaves the row
exactly as it was — still flagged active — instead of marking it
inactive. -/
theorem recovery_expired_row_stays_active_cex :
    isInCooldown
        (restoreTimersFromDatabase defaultConfig
          (initialState (singleCooldownLedger "chat1" 0 10) 1000000))
        "chat1" = false ∧
    (restoreTimersFromDatabase defaultConfig
        (initialState (singleCooldownLedger "chat1" 0 10) 1000000)).ledger.cooldowns =
      [{ convId := "chat1", startTime := 0, endTime := 10, isActive := true }] := by
  decide

end WhatsappPA
